import Mathlib

/-!
Verification development for an evdev-to-websocket input broadcast server
(`src/main.py`).  The raw-event processing pipeline (`process_event`,
`handle_mouse_button`, `handle_keyboard_key`) and the broadcast fan-out
(`broadcast_event`) are embedded as pure Lean functions; mutable fields of
`InputServer` become an explicit `ServerState` record threaded through the
step functions, and each `await self.broadcast_event(ev)` call becomes an
emitted event in the step's result.
-/

set_option maxRecDepth 4000
set_option linter.unnecessarySeqFocus false

/-! ## Constants from the Linux input event interface (`evdev.ecodes`) -/

def EV_KEY : Nat := 1
def EV_REL : Nat := 2

def REL_X : Nat := 0
def REL_Y : Nat := 1
def REL_HWHEEL : Nat := 6
def REL_WHEEL : Nat := 8

/-! ## Event-type tags (`EventType`, a `str` enum in the source) -/

def KEY_PRESSED : String := "key_pressed"
def KEY_RELEASED : String := "key_released"
def KEY_TYPED : String := "key_typed"
def MOUSE_MOVED : String := "mouse_moved"
def MOUSE_PRESSED : String := "mouse_pressed"
def MOUSE_RELEASED : String := "mouse_released"
def MOUSE_WHEEL : String := "mouse_wheel"

/-- `MouseDirection` (an `int` enum in the source): `VERTICAL = 3`. -/
def VERTICAL : Nat := 3

/-- `MouseDirection`: `HORIZONTAL = 4`. -/
def HORIZONTAL : Nat := 4

/-! ## Event dataclasses -/

/-- A raw evdev event as consumed by `process_event`: fields `type`, `code`,
`value` of the evdev input event (`type` is renamed `etype` here). -/
structure RawEvent where
  etype : Nat
  code : Nat
  value : Int
deriving DecidableEq, Repr

/-- The `InputEvent` union of the four event dataclasses
(`KeyboardEvent`, `MouseButtonEvent`, `MouseMovementEvent`,
`MouseWheelEvent`), each carrying its `event_type` discriminant. -/
inductive InputEvent where
  | keyboard (event_type : String) (keycode : Nat)
  | mouseButton (event_type : String) (button : Nat) (mask : Nat)
  | mouseMovement (event_type : String) (x : Int) (y : Int)
  | mouseWheel (event_type : String) (direction : Nat) (rotation : Int)
deriving DecidableEq, Repr

/-! ## The static keycode table `EVDEV_TO_LIBUIOHOOK`

Keys are the numeric values of the `evdev.ecodes.KEY_*` constants
(Linux `input-event-codes.h`); values are the libuiohook codes from the
source dictionary. -/

def EVDEV_TO_LIBUIOHOOK (code : Nat) : Option Nat :=
  match code with
  -- Function keys
  | 1 => some 0x0001    -- KEY_ESC → VC_ESCAPE
  | 59 => some 0x003b   -- KEY_F1
  | 60 => some 0x003c   -- KEY_F2
  | 61 => some 0x003d   -- KEY_F3
  | 62 => some 0x003e   -- KEY_F4
  | 63 => some 0x003f   -- KEY_F5
  | 64 => some 0x0040   -- KEY_F6
  | 65 => some 0x0041   -- KEY_F7
  | 66 => some 0x0042   -- KEY_F8
  | 67 => some 0x0043   -- KEY_F9
  | 68 => some 0x0044   -- KEY_F10
  | 87 => some 0x0057   -- KEY_F11
  | 88 => some 0x0058   -- KEY_F12
  -- Number row
  | 41 => some 0x0029   -- KEY_GRAVE → VC_BACKQUOTE
  | 2 => some 0x0002    -- KEY_1
  | 3 => some 0x0003    -- KEY_2
  | 4 => some 0x0004    -- KEY_3
  | 5 => some 0x0005    -- KEY_4
  | 6 => some 0x0006    -- KEY_5
  | 7 => some 0x0007    -- KEY_6
  | 8 => some 0x0008    -- KEY_7
  | 9 => some 0x0009    -- KEY_8
  | 10 => some 0x000a   -- KEY_9
  | 11 => some 0x000b   -- KEY_0
  | 12 => some 0x000c   -- KEY_MINUS
  | 13 => some 0x000d   -- KEY_EQUAL
  | 14 => some 0x000e   -- KEY_BACKSPACE
  -- Top row
  | 15 => some 0x000f   -- KEY_TAB
  | 16 => some 0x0010   -- KEY_Q
  | 17 => some 0x0011   -- KEY_W
  | 18 => some 0x0012   -- KEY_E
  | 19 => some 0x0013   -- KEY_R
  | 20 => some 0x0014   -- KEY_T
  | 21 => some 0x0015   -- KEY_Y
  | 22 => some 0x0016   -- KEY_U
  | 23 => some 0x0017   -- KEY_I
  | 24 => some 0x0018   -- KEY_O
  | 25 => some 0x0019   -- KEY_P
  | 26 => some 0x001a   -- KEY_LEFTBRACE
  | 27 => some 0x001b   -- KEY_RIGHTBRACE
  | 43 => some 0x002b   -- KEY_BACKSLASH
  -- Home row
  | 58 => some 0x003a   -- KEY_CAPSLOCK
  | 30 => some 0x001e   -- KEY_A
  | 31 => some 0x001f   -- KEY_S
  | 32 => some 0x0020   -- KEY_D
  | 33 => some 0x0021   -- KEY_F
  | 34 => some 0x0022   -- KEY_G
  | 35 => some 0x0023   -- KEY_H
  | 36 => some 0x0024   -- KEY_J
  | 37 => some 0x0025   -- KEY_K
  | 38 => some 0x0026   -- KEY_L
  | 39 => some 0x0027   -- KEY_SEMICOLON
  | 40 => some 0x0028   -- KEY_APOSTROPHE
  | 28 => some 0x001c   -- KEY_ENTER
  -- Bottom row
  | 42 => some 0x002a   -- KEY_LEFTSHIFT
  | 44 => some 0x002c   -- KEY_Z
  | 45 => some 0x002d   -- KEY_X
  | 46 => some 0x002e   -- KEY_C
  | 47 => some 0x002f   -- KEY_V
  | 48 => some 0x0030   -- KEY_B
  | 49 => some 0x0031   -- KEY_N
  | 50 => some 0x0032   -- KEY_M
  | 51 => some 0x0033   -- KEY_COMMA
  | 52 => some 0x0034   -- KEY_DOT
  | 53 => some 0x0035   -- KEY_SLASH
  | 54 => some 0x0036   -- KEY_RIGHTSHIFT
  -- Modifier keys
  | 29 => some 0x001d   -- KEY_LEFTCTRL
  | 125 => some 0x0e5b  -- KEY_LEFTMETA
  | 56 => some 0x0038   -- KEY_LEFTALT
  | 57 => some 0x0039   -- KEY_SPACE
  | 100 => some 0x0e38  -- KEY_RIGHTALT
  | 126 => some 0x0e5c  -- KEY_RIGHTMETA
  | 127 => some 0x0e5d  -- KEY_COMPOSE
  | 97 => some 0x0e1d   -- KEY_RIGHTCTRL
  -- Navigation cluster
  | 210 => some 0x0e37  -- KEY_PRINT
  | 70 => some 0x0046   -- KEY_SCROLLLOCK
  | 119 => some 0x0e45  -- KEY_PAUSE
  | 110 => some 0x0e52  -- KEY_INSERT
  | 102 => some 0x0e47  -- KEY_HOME
  | 104 => some 0x0e49  -- KEY_PAGEUP
  | 111 => some 0x0e53  -- KEY_DELETE
  | 107 => some 0x0e4f  -- KEY_END
  | 109 => some 0x0e51  -- KEY_PAGEDOWN
  -- Arrow keys
  | 103 => some 0x0e48  -- KEY_UP
  | 105 => some 0x0e4b  -- KEY_LEFT
  | 106 => some 0x0e4d  -- KEY_RIGHT
  | 108 => some 0x0e50  -- KEY_DOWN
  -- Numpad
  | 69 => some 0x0045   -- KEY_NUMLOCK
  | 98 => some 0x0e35   -- KEY_KPSLASH
  | 55 => some 0x0037   -- KEY_KPASTERISK
  | 74 => some 0x004a   -- KEY_KPMINUS
  | 78 => some 0x004e   -- KEY_KPPLUS
  | 96 => some 0x0e1c   -- KEY_KPENTER
  | 79 => some 0x004f   -- KEY_KP1
  | 80 => some 0x0050   -- KEY_KP2
  | 81 => some 0x0051   -- KEY_KP3
  | 75 => some 0x004b   -- KEY_KP4
  | 76 => some 0x004c   -- KEY_KP5
  | 77 => some 0x004d   -- KEY_KP6
  | 71 => some 0x0047   -- KEY_KP7
  | 72 => some 0x0048   -- KEY_KP8
  | 73 => some 0x0049   -- KEY_KP9
  | 82 => some 0x0052   -- KEY_KP0
  | 83 => some 0x0053   -- KEY_KPDOT
  | _ => none

/-! ## Mouse button codes and masks -/

def BTN_LEFT : Nat := 0x110
def BTN_RIGHT : Nat := 0x111
def BTN_MIDDLE : Nat := 0x112
def BTN_SIDE : Nat := 0x113
def BTN_EXTRA : Nat := 0x114

/-- The `MOUSE_BUTTON_MASKS` dictionary, as a lookup. -/
def MOUSE_BUTTON_MASKS (code : Nat) : Option Nat :=
  if code = BTN_LEFT then some (1 <<< 8)        -- VC_BUTTON1
  else if code = BTN_RIGHT then some (1 <<< 9)  -- VC_BUTTON2
  else if code = BTN_MIDDLE then some (1 <<< 10) -- VC_BUTTON3
  else if code = BTN_SIDE then some (1 <<< 11)  -- VC_BUTTON4
  else if code = BTN_EXTRA then some (1 <<< 12) -- VC_BUTTON5
  else none

/-! ## Server session state

The mutable fields of `InputServer` touched by event processing.
`mouse_button_state` is a nonnegative Python int throughout (it starts at
`0` and is only ever or-ed with a mask or and-masked), so it is a `Nat`
here.  The websocket client set is modelled separately with the broadcast
hub below. -/

structure ServerState where
  mouse_button_state : Nat
  mouse_x : Int
  mouse_y : Int
  current_keyboard_state : Finset Nat
deriving DecidableEq

/-- The fields as initialised in `InputServer.__init__`. -/
def initState : ServerState :=
  { mouse_button_state := 0, mouse_x := 0, mouse_y := 0,
    current_keyboard_state := ∅ }

/-! ## Event handlers

Each handler returns the updated state together with the (zero or one)
event passed to `broadcast_event` during the call. -/

/-- `InputServer.handle_mouse_button`.  The `none` arm of the table match is
unreachable from `process_event`, which only calls this when `code` is a key
of `MOUSE_BUTTON_MASKS` (the Python subscript would raise otherwise). -/
def handle_mouse_button (st : ServerState) (code : Nat) (value : Int) :
    ServerState × Option InputEvent :=
  let button_id := code - BTN_LEFT  -- Convert to 0-based index
  match MOUSE_BUTTON_MASKS code with
  | none => (st, none)
  | some mask =>
    if value = 1 then  -- Pressed
      let s := st.mouse_button_state ||| mask
      ({ st with mouse_button_state := s },
       some (.mouseButton MOUSE_PRESSED button_id s))
    else if value = 0 then  -- Released
      -- Python: `self.mouse_button_state &= ~mask`; on a nonnegative int
      -- this clears the bits of `mask`, i.e. xors away the common bits.
      let s := st.mouse_button_state ^^^ (st.mouse_button_state &&& mask)
      ({ st with mouse_button_state := s },
       some (.mouseButton MOUSE_RELEASED button_id s))
    else (st, none)

/-- `InputServer.handle_keyboard_key`.  The `none` arm of the table match is
unreachable from `process_event`, which only calls this when `code` is a key
of `EVDEV_TO_LIBUIOHOOK`. -/
def handle_keyboard_key (st : ServerState) (code : Nat) (value : Int) :
    ServerState × Option InputEvent :=
  match EVDEV_TO_LIBUIOHOOK code with
  | none => (st, none)
  | some libuiohook_code =>
    if value = 1 then  -- Pressed
      ({ st with current_keyboard_state :=
           insert libuiohook_code st.current_keyboard_state },
       some (.keyboard KEY_PRESSED libuiohook_code))
    else if value = 0 then  -- Released
      (if libuiohook_code ∈ st.current_keyboard_state then
         { st with current_keyboard_state :=
             st.current_keyboard_state.erase libuiohook_code }
       else st,
       some (.keyboard KEY_RELEASED libuiohook_code))
    else  -- Repeat (value = 2) and any other value: no mutation, no event
      (st, none)

/-- The wheel branches of `process_event`:
`rotation = 1 if event.value > 0 else -1`. -/
def wheelRotation (value : Int) : Int :=
  if value > 0 then 1 else -1

/-- `InputServer.process_event`. -/
def process_event (st : ServerState) (e : RawEvent) :
    ServerState × Option InputEvent :=
  if e.etype = EV_KEY then
    -- Keyboard or mouse button event
    if (MOUSE_BUTTON_MASKS e.code).isSome then
      handle_mouse_button st e.code e.value
    else if (EVDEV_TO_LIBUIOHOOK e.code).isSome then
      handle_keyboard_key st e.code e.value
    else (st, none)
  else if e.etype = EV_REL then
    -- Mouse movement or wheel event
    if e.code = REL_X then
      let x := st.mouse_x + e.value
      ({ st with mouse_x := x },
       some (.mouseMovement MOUSE_MOVED x st.mouse_y))
    else if e.code = REL_Y then
      let y := st.mouse_y + e.value
      ({ st with mouse_y := y },
       some (.mouseMovement MOUSE_MOVED st.mouse_x y))
    else if e.code = REL_WHEEL then
      (st, some (.mouseWheel MOUSE_WHEEL VERTICAL (wheelRotation e.value)))
    else if e.code = REL_HWHEEL then
      (st, some (.mouseWheel MOUSE_WHEEL HORIZONTAL (wheelRotation e.value)))
    else (st, none)
  else (st, none)

/-- Replay a sequence of raw events through `process_event`, collecting the
events handed to `broadcast_event` in order. -/
def replay (st : ServerState) : List RawEvent → ServerState × List InputEvent
  | [] => (st, [])
  | e :: rest =>
    let r := process_event st e
    let rr := replay r.1 rest
    (rr.1, r.2.toList ++ rr.2)

/-- State component of `replay`. -/
def replayState (st : ServerState) (es : List RawEvent) : ServerState :=
  (replay st es).1

/-- Emitted-event component of `replay`. -/
def replayEvents (st : ServerState) (es : List RawEvent) : List InputEvent :=
  (replay st es).2

/-! ## The broadcast hub (`InputServer.broadcast_event`)

Clients are identified by `Nat`; the client set is a duplicate-free list
(a Python `set`), in iteration order.  Whether `await client.send(message)`
raises `websockets.exceptions.ConnectionClosed` is an oracle
`fails : Nat → Bool` supplied by the environment.  `broadcast_event`
returns the updated client set, the number of times the event was
serialised (`json.dumps` call count), and the successful deliveries
`(client, message)` in send order. -/

/-- `json.dumps(asdict(event))`: the four dataclasses serialise to a flat
JSON object, `event_type` field first (dataclass field order), `str`/`int`
enum members serialising as their values. -/
def serializeEvent : InputEvent → String
  | .keyboard event_type keycode =>
      "\x7b\"event_type\": \"" ++ event_type ++ "\", \"keycode\": " ++
        toString keycode ++ "\x7d"
  | .mouseButton event_type button mask =>
      "\x7b\"event_type\": \"" ++ event_type ++ "\", \"button\": " ++
        toString button ++ ", \"mask\": " ++ toString mask ++ "\x7d"
  | .mouseMovement event_type x y =>
      "\x7b\"event_type\": \"" ++ event_type ++ "\", \"x\": " ++
        toString x ++ ", \"y\": " ++ toString y ++ "\x7d"
  | .mouseWheel event_type direction rotation =>
      "\x7b\"event_type\": \"" ++ event_type ++ "\", \"direction\": " ++
        toString direction ++ ", \"rotation\": " ++ toString rotation ++ "\x7d"

/-- The `for client in self.clients` send loop: returns the
`disconnected_clients` accumulated from `ConnectionClosed` and the
successful deliveries in order. -/
def sendLoop (fails : Nat → Bool) (message : String) :
    List Nat → List Nat × List (Nat × String)
  | [] => ([], [])
  | c :: rest =>
    let tail := sendLoop fails message rest
    if fails c then (c :: tail.1, tail.2)
    else (tail.1, (c, message) :: tail.2)

/-- `InputServer.broadcast_event`: early return on an empty client set
(before serialisation), otherwise serialise once, attempt every client,
then remove the disconnected clients (`self.clients -= disconnected`).
Result: (new client set, serialisation count, deliveries). -/
def broadcast_event (fails : Nat → Bool) (clients : List Nat)
    (event : InputEvent) : List Nat × Nat × List (Nat × String) :=
  if clients.isEmpty then (clients, 0, [])
  else
    let message := serializeEvent event
    let r := sendLoop fails message clients
    (clients.filter (fun c => !(decide (c ∈ r.1))), 1, r.2)

/-- Publish a sequence of events through `broadcast_event`, numbering the
publish calls from `n` so the failure oracle `fails client n` may depend on
the call; returns the final client set and all deliveries in order. -/
def publishFrom (fails : Nat → Nat → Bool) (n : Nat) (clients : List Nat) :
    List InputEvent → List Nat × List (Nat × String)
  | [] => (clients, [])
  | ev :: rest =>
    let r := broadcast_event (fun c => fails c n) clients ev
    let rr := publishFrom fails (n + 1) r.1 rest
    (rr.1, r.2.2 ++ rr.2)

/-- The messages delivered to client `c`, in delivery order. -/
def receivedBy (c : Nat) (deliveries : List (Nat × String)) : List String :=
  (deliveries.filter (fun d => d.1 = c)).map (fun d => d.2)

/-! ## Spec-side measures

Reference functions stating what the spec asserts about replays: cumulative
per-axis deltas, and the last press/release per code.  These are measures of
the *input* sequence, compared against the embedded code's behaviour. -/

/-- Cumulative sum of all `REL_X` deltas in `es`. -/
def sumRelX (es : List RawEvent) : Int :=
  ((es.filter (fun e => e.etype == EV_REL && e.code == REL_X)).map
    RawEvent.value).sum

/-- Cumulative sum of all `REL_Y` deltas in `es`. -/
def sumRelY (es : List RawEvent) : Int :=
  ((es.filter (fun e => e.etype == EV_REL && e.code == REL_Y)).map
    RawEvent.value).sum

/-- Does raw event `e` press or release (value `1` or `0`) the key with
protocol code `p`? -/
def keyActs (e : RawEvent) (p : Nat) : Bool :=
  e.etype == EV_KEY && EVDEV_TO_LIBUIOHOOK e.code == some p &&
    (e.value == 0 || e.value == 1)

/-- The value (`1` = press, `0` = release) of the last press-or-release of
protocol key `p` in `es`, if any. -/
def lastKeyAct (es : List RawEvent) (p : Nat) : Option Int :=
  match es with
  | [] => none
  | e :: rest =>
    match lastKeyAct rest p with
    | some v => some v
    | none => if keyActs e p then some e.value else none

/-- Does raw event `e` press or release the mouse button with device code
`c`? -/
def buttonActs (e : RawEvent) (c : Nat) : Bool :=
  e.etype == EV_KEY && e.code == c && (e.value == 0 || e.value == 1)

/-- The value of the last press-or-release of button code `c` in `es`. -/
def lastButtonAct (es : List RawEvent) (c : Nat) : Option Int :=
  match es with
  | [] => none
  | e :: rest =>
    match lastButtonAct rest c with
    | some v => some v
    | none => if buttonActs e c then some e.value else none

/-- The masks carried by the mouse-button events of a stream, in order. -/
def masksOf (evs : List InputEvent) : List Nat :=
  evs.filterMap (fun ev => match ev with
    | .mouseButton _ _ mask => some mask
    | _ => none)

/-! ## Helper lemmas: bitmask arithmetic -/

lemma or_and_self (s m : Nat) : (s ||| m) &&& m = m := by
  apply Nat.eq_of_testBit_eq
  intro i
  simp only [Nat.testBit_land, Nat.testBit_lor]
  cases s.testBit i <;> cases m.testBit i <;> rfl

lemma clear_and_self (s m : Nat) : (s ^^^ (s &&& m)) &&& m = 0 := by
  apply Nat.eq_of_testBit_eq
  intro i
  simp only [Nat.testBit_land, Nat.testBit_xor, Nat.zero_testBit]
  cases s.testBit i <;> cases m.testBit i <;> rfl

lemma or_and_of_disjoint (s m' m : Nat) (h : m' &&& m = 0) :
    (s ||| m') &&& m = s &&& m := by
  apply Nat.eq_of_testBit_eq
  intro i
  have hb := congrArg (Nat.testBit · i) h
  simp only [Nat.testBit_land, Nat.zero_testBit] at hb
  simp only [Nat.testBit_land, Nat.testBit_lor]
  cases hs : s.testBit i <;> cases hm : m.testBit i <;>
    cases hm' : (m').testBit i <;> simp_all

lemma clear_and_of_disjoint (s m' m : Nat) (h : m' &&& m = 0) :
    (s ^^^ (s &&& m')) &&& m = s &&& m := by
  apply Nat.eq_of_testBit_eq
  intro i
  have hb := congrArg (Nat.testBit · i) h
  simp only [Nat.testBit_land, Nat.zero_testBit] at hb
  simp only [Nat.testBit_land, Nat.testBit_xor]
  cases hs : s.testBit i <;> cases hm : m.testBit i <;>
    cases hm' : (m').testBit i <;> simp_all

lemma or_and_distrib (s m t : Nat) :
    (s ||| m) &&& t = (s &&& t) ||| (m &&& t) := by
  apply Nat.eq_of_testBit_eq
  intro i
  simp only [Nat.testBit_land, Nat.testBit_lor]
  cases s.testBit i <;> cases m.testBit i <;> cases t.testBit i <;> rfl

lemma clear_and_of_sub (s m t : Nat) (h : s &&& t = s) :
    (s ^^^ (s &&& m)) &&& t = s ^^^ (s &&& m) := by
  apply Nat.eq_of_testBit_eq
  intro i
  have hb := congrArg (Nat.testBit · i) h
  simp only [Nat.testBit_land] at hb
  simp only [Nat.testBit_land, Nat.testBit_xor]
  cases hs : s.testBit i <;> cases hm : m.testBit i <;>
    cases ht : t.testBit i <;> simp_all

/-! ## Helper lemmas: the static tables -/

lemma button_table_cases {c m : Nat} (h : MOUSE_BUTTON_MASKS c = some m) :
    (c = 272 ∧ m = 256) ∨ (c = 273 ∧ m = 512) ∨ (c = 274 ∧ m = 1024) ∨
    (c = 275 ∧ m = 2048) ∨ (c = 276 ∧ m = 4096) := by
  unfold MOUSE_BUTTON_MASKS BTN_LEFT BTN_RIGHT BTN_MIDDLE BTN_SIDE BTN_EXTRA
    at h
  split_ifs at h <;> simp_all

lemma tables_disjoint {c m : Nat} (h : MOUSE_BUTTON_MASKS c = some m) :
    EVDEV_TO_LIBUIOHOOK c = none := by
  rcases button_table_cases h with ⟨rfl, _⟩ | ⟨rfl, _⟩ | ⟨rfl, _⟩ |
    ⟨rfl, _⟩ | ⟨rfl, _⟩ <;> rfl

lemma masks_disjoint {c c' m m' : Nat} (h : MOUSE_BUTTON_MASKS c = some m)
    (h' : MOUSE_BUTTON_MASKS c' = some m') (hne : c ≠ c') :
    m &&& m' = 0 := by
  rcases button_table_cases h with ⟨rfl, rfl⟩ | ⟨rfl, rfl⟩ | ⟨rfl, rfl⟩ |
    ⟨rfl, rfl⟩ | ⟨rfl, rfl⟩ <;>
  rcases button_table_cases h' with ⟨rfl, rfl⟩ | ⟨rfl, rfl⟩ | ⟨rfl, rfl⟩ |
    ⟨rfl, rfl⟩ | ⟨rfl, rfl⟩ <;> first | rfl | exact absurd rfl hne

lemma button_mask_within {c m : Nat} (h : MOUSE_BUTTON_MASKS c = some m) :
    m &&& 7936 = m := by
  rcases button_table_cases h with ⟨rfl, rfl⟩ | ⟨rfl, rfl⟩ | ⟨rfl, rfl⟩ |
    ⟨rfl, rfl⟩ | ⟨rfl, rfl⟩ <;> rfl

/-! ## Helper lemmas: frame conditions of the step functions -/

lemma handle_mouse_button_keys (st : ServerState) (c : Nat) (v : Int) :
    (handle_mouse_button st c v).1.current_keyboard_state =
      st.current_keyboard_state := by
  unfold handle_mouse_button
  cases MOUSE_BUTTON_MASKS c <;> simp <;> split_ifs <;> rfl

lemma handle_mouse_button_xy (st : ServerState) (c : Nat) (v : Int) :
    (handle_mouse_button st c v).1.mouse_x = st.mouse_x ∧
    (handle_mouse_button st c v).1.mouse_y = st.mouse_y := by
  unfold handle_mouse_button
  cases MOUSE_BUTTON_MASKS c <;> simp <;> split_ifs <;> exact ⟨rfl, rfl⟩

lemma handle_keyboard_key_mask (st : ServerState) (c : Nat) (v : Int) :
    (handle_keyboard_key st c v).1.mouse_button_state =
      st.mouse_button_state := by
  unfold handle_keyboard_key
  cases EVDEV_TO_LIBUIOHOOK c <;> simp <;> split_ifs <;> rfl

lemma handle_keyboard_key_xy (st : ServerState) (c : Nat) (v : Int) :
    (handle_keyboard_key st c v).1.mouse_x = st.mouse_x ∧
    (handle_keyboard_key st c v).1.mouse_y = st.mouse_y := by
  unfold handle_keyboard_key
  cases EVDEV_TO_LIBUIOHOOK c <;> simp <;> split_ifs <;> exact ⟨rfl, rfl⟩

/-! ## Helper lemmas: branch computations of the step functions -/

lemma handle_mouse_button_press (st : ServerState) (c m : Nat)
    (hm : MOUSE_BUTTON_MASKS c = some m) :
    handle_mouse_button st c 1 =
      ({ st with mouse_button_state := st.mouse_button_state ||| m },
       some (.mouseButton MOUSE_PRESSED (c - BTN_LEFT)
         (st.mouse_button_state ||| m))) := by
  unfold handle_mouse_button
  rw [hm]
  norm_num

lemma handle_mouse_button_release (st : ServerState) (c m : Nat)
    (hm : MOUSE_BUTTON_MASKS c = some m) :
    handle_mouse_button st c 0 =
      ({ st with mouse_button_state :=
           st.mouse_button_state ^^^ (st.mouse_button_state &&& m) },
       some (.mouseButton MOUSE_RELEASED (c - BTN_LEFT)
         (st.mouse_button_state ^^^ (st.mouse_button_state &&& m)))) := by
  unfold handle_mouse_button
  rw [hm]
  norm_num

lemma handle_mouse_button_other (st : ServerState) (c : Nat) (v : Int)
    (hv1 : v ≠ 1) (hv0 : v ≠ 0) :
    handle_mouse_button st c v = (st, none) := by
  unfold handle_mouse_button
  cases MOUSE_BUTTON_MASKS c <;> simp [hv1, hv0]

lemma handle_keyboard_key_press (st : ServerState) (c p : Nat)
    (hl : EVDEV_TO_LIBUIOHOOK c = some p) :
    handle_keyboard_key st c 1 =
      ({ st with current_keyboard_state :=
           insert p st.current_keyboard_state },
       some (.keyboard KEY_PRESSED p)) := by
  unfold handle_keyboard_key
  rw [hl]
  norm_num

lemma handle_keyboard_key_release (st : ServerState) (c p : Nat)
    (hl : EVDEV_TO_LIBUIOHOOK c = some p) :
    handle_keyboard_key st c 0 =
      ((if p ∈ st.current_keyboard_state then
          { st with current_keyboard_state :=
              st.current_keyboard_state.erase p }
        else st),
       some (.keyboard KEY_RELEASED p)) := by
  unfold handle_keyboard_key
  rw [hl]
  norm_num

lemma handle_keyboard_key_other (st : ServerState) (c : Nat) (v : Int)
    (hv1 : v ≠ 1) (hv0 : v ≠ 0) :
    handle_keyboard_key st c v = (st, none) := by
  unfold handle_keyboard_key
  cases EVDEV_TO_LIBUIOHOOK c <;> simp [hv1, hv0]

lemma process_event_button_branch (st : ServerState) (e : RawEvent)
    (hk : e.etype = EV_KEY) (hb : (MOUSE_BUTTON_MASKS e.code).isSome) :
    process_event st e = handle_mouse_button st e.code e.value := by
  unfold process_event
  simp [hk, hb]

lemma process_event_key_branch (st : ServerState) (e : RawEvent)
    (hk : e.etype = EV_KEY) (hb : MOUSE_BUTTON_MASKS e.code = none)
    (hl : (EVDEV_TO_LIBUIOHOOK e.code).isSome) :
    process_event st e = handle_keyboard_key st e.code e.value := by
  unfold process_event
  simp [hk, hb, hl]

lemma process_event_unmapped (st : ServerState) (e : RawEvent)
    (hk : e.etype = EV_KEY) (hb : MOUSE_BUTTON_MASKS e.code = none)
    (hl : EVDEV_TO_LIBUIOHOOK e.code = none) :
    process_event st e = (st, none) := by
  unfold process_event
  simp [hk, hb, hl]

lemma process_event_other_type (st : ServerState) (e : RawEvent)
    (hk : e.etype ≠ EV_KEY) (hr : e.etype ≠ EV_REL) :
    process_event st e = (st, none) := by
  unfold process_event
  simp [hk, hr]

lemma process_event_rel_state (st : ServerState) (e : RawEvent)
    (hr : e.etype = EV_REL) :
    (process_event st e).1.mouse_button_state = st.mouse_button_state ∧
    (process_event st e).1.current_keyboard_state =
      st.current_keyboard_state := by
  have hk : e.etype ≠ EV_KEY := by rw [hr]; decide
  unfold process_event
  rw [if_neg hk, if_pos hr]
  split_ifs <;> exact ⟨rfl, rfl⟩

/-! ## Helper lemmas: the pressed-key set and the button mask only move on
press/release actions -/

lemma process_event_keys_not_acts (st : ServerState) (e : RawEvent)
    (p : Nat) (h : keyActs e p = false) :
    p ∈ (process_event st e).1.current_keyboard_state ↔
      p ∈ st.current_keyboard_state := by
  by_cases hk : e.etype = EV_KEY
  · by_cases hb : (MOUSE_BUTTON_MASKS e.code).isSome
    · rw [process_event_button_branch st e hk hb, handle_mouse_button_keys]

    · rw [Option.not_isSome_iff_eq_none] at hb
      cases hl : EVDEV_TO_LIBUIOHOOK e.code with
      | none => rw [process_event_unmapped st e hk hb hl]
      | some p' =>
        rw [process_event_key_branch st e hk hb (by rw [hl]; rfl)]
        simp only [keyActs, hk, hl, EV_KEY, beq_self_eq_true,
          Bool.true_and] at h
        by_cases hpp : p' = p
        · subst hpp
          simp only [beq_self_eq_true, Bool.true_and] at h
          have h0 : ¬ e.value = 0 := by
            intro h0; rw [h0] at h; simp at h
          have h1 : ¬ e.value = 1 := by
            intro h1; rw [h1] at h; simp at h
          rw [handle_keyboard_key_other st e.code e.value h1 h0]
        · rcases eq_or_ne e.value 1 with hv | hv
          · rw [hv, handle_keyboard_key_press st e.code p' hl]
            simp [Ne.symm hpp]
          · rcases eq_or_ne e.value 0 with hv0 | hv0
            · rw [hv0, handle_keyboard_key_release st e.code p' hl]
              split_ifs
              · simp only [Finset.mem_erase]
                exact ⟨fun hh => hh.2,
                  fun hh => ⟨fun he => hpp he.symm, hh⟩⟩
              · exact Iff.rfl
            · rw [handle_keyboard_key_other st e.code e.value hv hv0]
  · by_cases hr : e.etype = EV_REL
    · rw [(process_event_rel_state st e hr).2]
    · rw [process_event_other_type st e hk hr]

lemma process_event_mask_not_acts (st : ServerState) (e : RawEvent)
    (c m : Nat) (hm : MOUSE_BUTTON_MASKS c = some m)
    (h : buttonActs e c = false) :
    (process_event st e).1.mouse_button_state &&& m =
      st.mouse_button_state &&& m := by
  by_cases hk : e.etype = EV_KEY
  · cases hb : MOUSE_BUTTON_MASKS e.code with
    | none =>
      cases hl : EVDEV_TO_LIBUIOHOOK e.code with
      | none => rw [process_event_unmapped st e hk hb hl]
      | some p' =>
        rw [process_event_key_branch st e hk hb (by rw [hl]; rfl),
          handle_keyboard_key_mask]
    | some m' =>
      rw [process_event_button_branch st e hk (by rw [hb]; rfl)]
      simp only [buttonActs, hk, EV_KEY, beq_self_eq_true, Bool.true_and]
        at h
      by_cases hcc : e.code = c
      · rw [hcc] at hb
        rw [hb] at hm
        injection hm with hmm
        subst hmm
        simp only [hcc, beq_self_eq_true, Bool.true_and] at h
        have h0 : ¬ e.value = 0 := by
          intro h0; rw [h0] at h; simp at h
        have h1 : ¬ e.value = 1 := by
          intro h1; rw [h1] at h; simp at h
        rw [hcc, handle_mouse_button_other st c e.value h1 h0]
      · have hdisj : m' &&& m = 0 := masks_disjoint hb hm hcc
        rcases eq_or_ne e.value 1 with hv | hv
        · rw [hv, handle_mouse_button_press st e.code m' hb]
          exact or_and_of_disjoint _ _ _ hdisj
        · rcases eq_or_ne e.value 0 with hv0 | hv0
          · rw [hv0, handle_mouse_button_release st e.code m' hb]
            exact clear_and_of_disjoint _ _ _ hdisj
          · rw [handle_mouse_button_other st e.code e.value hv hv0]
  · by_cases hr : e.etype = EV_REL
    · rw [(process_event_rel_state st e hr).1]
    · rw [process_event_other_type st e hk hr]

lemma process_event_keys_acts (st : ServerState) (e : RawEvent) (p : Nat)
    (hact : keyActs e p = true) :
    (p ∈ (process_event st e).1.current_keyboard_state ↔ e.value = 1) := by
  simp only [keyActs, Bool.and_eq_true, Bool.or_eq_true, beq_iff_eq]
    at hact
  obtain ⟨⟨hk, hl⟩, hv⟩ := hact
  cases hb : MOUSE_BUTTON_MASKS e.code with
  | some m' => rw [tables_disjoint hb] at hl; exact absurd hl (by simp)
  | none =>
    rw [process_event_key_branch st e hk hb (by rw [hl]; rfl)]
    rcases hv with hv | hv
    · rw [hv, handle_keyboard_key_release st e.code p hl]
      constructor
      · intro hmem
        split_ifs at hmem with hsp
        · exact absurd hmem (Finset.not_mem_erase p _)
        · exact absurd hmem hsp
      · intro hh; exact absurd hh (by decide)
    · rw [hv, handle_keyboard_key_press st e.code p hl]
      simp

lemma process_event_mask_acts (st : ServerState) (e : RawEvent)
    (c m : Nat) (hm : MOUSE_BUTTON_MASKS c = some m)
    (hact : buttonActs e c = true) :
    (process_event st e).1.mouse_button_state &&& m =
      (if e.value = 1 then m else 0) := by
  simp only [buttonActs, Bool.and_eq_true, Bool.or_eq_true, beq_iff_eq]
    at hact
  obtain ⟨⟨hk, hc⟩, hv⟩ := hact
  rw [process_event_button_branch st e hk (by rw [hc, hm]; rfl)]
  rcases hv with hv | hv
  · rw [hv, hc, handle_mouse_button_release st c m hm]
    rw [if_neg (by decide : ¬ (0 : Int) = 1)]
    exact clear_and_self _ _
  · rw [hv, hc, handle_mouse_button_press st c m hm]
    rw [if_pos rfl]
    exact or_and_self _ _

/-! ## Helper lemmas: replay characterizations -/

lemma replayState_cons (st : ServerState) (e : RawEvent)
    (rest : List RawEvent) :
    replayState st (e :: rest) = replayState (process_event st e).1 rest :=
  rfl

lemma keys_replay_char (es : List RawEvent) (st : ServerState) (p : Nat) :
    p ∈ (replayState st es).current_keyboard_state ↔
      (lastKeyAct es p = some 1 ∨
       (lastKeyAct es p = none ∧ p ∈ st.current_keyboard_state)) := by
  induction es generalizing st with
  | nil => simp [replayState, replay, lastKeyAct]
  | cons e rest ih =>
    rw [replayState_cons, ih]
    cases hl : lastKeyAct rest p with
    | some v => simp [lastKeyAct, hl]
    | none =>
      cases hact : keyActs e p with
      | false =>
        simp [lastKeyAct, hl, hact,
          process_event_keys_not_acts st e p hact]
      | true =>
        simp [lastKeyAct, hl, hact,
          process_event_keys_acts st e p hact]

lemma mask_replay_char (es : List RawEvent) (st : ServerState)
    (c m : Nat) (hm : MOUSE_BUTTON_MASKS c = some m) :
    (replayState st es).mouse_button_state &&& m =
      (match lastButtonAct es c with
       | none => st.mouse_button_state &&& m
       | some v => if v = 1 then m else 0) := by
  induction es generalizing st with
  | nil => rfl
  | cons e rest ih =>
    rw [replayState_cons, ih]
    cases hl : lastButtonAct rest c with
    | some v => simp [lastButtonAct, hl]
    | none =>
      cases hact : buttonActs e c with
      | false =>
        simp [lastButtonAct, hl, hact,
          process_event_mask_not_acts st e c m hm hact]
      | true =>
        simp [lastButtonAct, hl, hact,
          process_event_mask_acts st e c m hm hact]

/-! ## Helper lemmas: mouse position accumulation -/

lemma process_event_mouse_x (st : ServerState) (e : RawEvent) :
    (process_event st e).1.mouse_x =
      st.mouse_x +
        (if e.etype = EV_REL ∧ e.code = REL_X then e.value else 0) := by
  by_cases hk : e.etype = EV_KEY
  · have hnot : ¬ (e.etype = EV_REL ∧ e.code = REL_X) := by
      rw [hk]; rintro ⟨hh, -⟩; exact absurd hh (by decide)
    rw [if_neg hnot, Int.add_zero]
    unfold process_event
    rw [if_pos hk]
    split_ifs with h1 h2
    · exact (handle_mouse_button_xy st e.code e.value).1
    · exact (handle_keyboard_key_xy st e.code e.value).1
    · rfl
  · by_cases hr : e.etype = EV_REL
    · unfold process_event
      rw [if_neg hk, if_pos hr]
      by_cases hx : e.code = REL_X
      · rw [if_pos hx, if_pos ⟨hr, hx⟩]
      · rw [if_neg hx,
          if_neg (show ¬ (e.etype = EV_REL ∧ e.code = REL_X) from
            fun hh => hx hh.2),
          Int.add_zero]
        split_ifs <;> rfl
    · rw [process_event_other_type st e hk hr,
        if_neg (show ¬ (e.etype = EV_REL ∧ e.code = REL_X) from
          fun hh => hr hh.1),
        Int.add_zero]

lemma process_event_mouse_y (st : ServerState) (e : RawEvent) :
    (process_event st e).1.mouse_y =
      st.mouse_y +
        (if e.etype = EV_REL ∧ e.code = REL_Y then e.value else 0) := by
  by_cases hk : e.etype = EV_KEY
  · have hnot : ¬ (e.etype = EV_REL ∧ e.code = REL_Y) := by
      rw [hk]; rintro ⟨hh, -⟩; exact absurd hh (by decide)
    rw [if_neg hnot, Int.add_zero]
    unfold process_event
    rw [if_pos hk]
    split_ifs with h1 h2
    · exact (handle_mouse_button_xy st e.code e.value).2
    · exact (handle_keyboard_key_xy st e.code e.value).2
    · rfl
  · by_cases hr : e.etype = EV_REL
    · unfold process_event
      rw [if_neg hk, if_pos hr]
      by_cases hx : e.code = REL_X
      · rw [if_pos hx,
          if_neg (fun hh : _ ∧ e.code = REL_Y => by
            rw [hx] at hh; exact absurd hh.2 (by decide)), Int.add_zero]
      · rw [if_neg hx]
        by_cases hy : e.code = REL_Y
        · rw [if_pos hy, if_pos ⟨hr, hy⟩]
        · rw [if_neg hy,
            if_neg (show ¬ (e.etype = EV_REL ∧ e.code = REL_Y) from
              fun hh => hy hh.2),
            Int.add_zero]
          split_ifs <;> rfl
    · rw [process_event_other_type st e hk hr,
        if_neg (show ¬ (e.etype = EV_REL ∧ e.code = REL_Y) from
          fun hh => hr hh.1),
        Int.add_zero]

lemma sumRelX_cons (e : RawEvent) (rest : List RawEvent) :
    sumRelX (e :: rest) =
      (if e.etype = EV_REL ∧ e.code = REL_X then e.value else 0) +
        sumRelX rest := by
  unfold sumRelX
  rw [List.filter_cons]
  by_cases h : e.etype = EV_REL ∧ e.code = REL_X
  · rw [if_pos (by simp [h.1, h.2]), if_pos h]
    simp
  · rw [if_neg (by
      intro hh
      simp only [Bool.and_eq_true, beq_iff_eq] at hh
      exact h hh), if_neg h, Int.zero_add]

lemma sumRelY_cons (e : RawEvent) (rest : List RawEvent) :
    sumRelY (e :: rest) =
      (if e.etype = EV_REL ∧ e.code = REL_Y then e.value else 0) +
        sumRelY rest := by
  unfold sumRelY
  rw [List.filter_cons]
  by_cases h : e.etype = EV_REL ∧ e.code = REL_Y
  · rw [if_pos (by simp [h.1, h.2]), if_pos h]
    simp
  · rw [if_neg (by
      intro hh
      simp only [Bool.and_eq_true, beq_iff_eq] at hh
      exact h hh), if_neg h, Int.zero_add]

lemma replay_mouse_x (es : List RawEvent) (st : ServerState) :
    (replayState st es).mouse_x = st.mouse_x + sumRelX es := by
  induction es generalizing st with
  | nil => simp [replayState, replay, sumRelX]
  | cons e rest ih =>
    rw [replayState_cons, ih, process_event_mouse_x, sumRelX_cons,
      Int.add_assoc]

lemma replay_mouse_y (es : List RawEvent) (st : ServerState) :
    (replayState st es).mouse_y = st.mouse_y + sumRelY es := by
  induction es generalizing st with
  | nil => simp [replayState, replay, sumRelY]
  | cons e rest ih =>
    rw [replayState_cons, ih, process_event_mouse_y, sumRelY_cons,
      Int.add_assoc]

lemma sumRelX_append (l1 l2 : List RawEvent) :
    sumRelX (l1 ++ l2) = sumRelX l1 + sumRelX l2 := by
  unfold sumRelX
  rw [List.filter_append, List.map_append, List.sum_append]

lemma sumRelY_append (l1 l2 : List RawEvent) :
    sumRelY (l1 ++ l2) = sumRelY l1 + sumRelY l2 := by
  unfold sumRelY
  rw [List.filter_append, List.map_append, List.sum_append]

lemma process_event_relx (st : ServerState) (e : RawEvent)
    (hr : e.etype = EV_REL) (hc : e.code = REL_X) :
    process_event st e =
      ({ st with mouse_x := st.mouse_x + e.value },
       some (.mouseMovement MOUSE_MOVED (st.mouse_x + e.value)
         st.mouse_y)) := by
  have hk : e.etype ≠ EV_KEY := by rw [hr]; decide
  unfold process_event
  rw [if_neg hk, if_pos hr, if_pos hc]

lemma process_event_rely (st : ServerState) (e : RawEvent)
    (hr : e.etype = EV_REL) (hc : e.code = REL_Y) :
    process_event st e =
      ({ st with mouse_y := st.mouse_y + e.value },
       some (.mouseMovement MOUSE_MOVED st.mouse_x
         (st.mouse_y + e.value))) := by
  have hk : e.etype ≠ EV_KEY := by rw [hr]; decide
  have hx : e.code ≠ REL_X := by rw [hc]; decide
  unfold process_event
  rw [if_neg hk, if_pos hr, if_neg hx, if_pos hc]

lemma process_event_wheel (st : ServerState) (e : RawEvent)
    (hr : e.etype = EV_REL) (hc : e.code = REL_WHEEL) :
    process_event st e =
      (st, some (.mouseWheel MOUSE_WHEEL VERTICAL
        (wheelRotation e.value))) := by
  have hk : e.etype ≠ EV_KEY := by rw [hr]; decide
  have hx : e.code ≠ REL_X := by rw [hc]; decide
  have hy : e.code ≠ REL_Y := by rw [hc]; decide
  unfold process_event
  rw [if_neg hk, if_pos hr, if_neg hx, if_neg hy, if_pos hc]

lemma process_event_hwheel (st : ServerState) (e : RawEvent)
    (hr : e.etype = EV_REL) (hc : e.code = REL_HWHEEL) :
    process_event st e =
      (st, some (.mouseWheel MOUSE_WHEEL HORIZONTAL
        (wheelRotation e.value))) := by
  have hk : e.etype ≠ EV_KEY := by rw [hr]; decide
  have hx : e.code ≠ REL_X := by rw [hc]; decide
  have hy : e.code ≠ REL_Y := by rw [hc]; decide
  have hw : e.code ≠ REL_WHEEL := by rw [hc]; decide
  unfold process_event
  rw [if_neg hk, if_pos hr, if_neg hx, if_neg hy, if_neg hw, if_pos hc]

/-! ## Helper lemmas: the broadcast hub -/

lemma sendLoop_eq (fails : Nat → Bool) (msg : String) (l : List Nat) :
    sendLoop fails msg l =
      (l.filter fails,
       (l.filter (fun c => !(fails c))).map (fun c => (c, msg))) := by
  induction l with
  | nil => rfl
  | cons c rest ih =>
    unfold sendLoop
    rw [ih]
    cases h : fails c <;> simp [List.filter_cons, h]

lemma broadcast_event_nonempty (fails : Nat → Bool) (clients : List Nat)
    (ev : InputEvent) (h : clients ≠ []) :
    broadcast_event fails clients ev =
      (clients.filter (fun c => !(fails c)), 1,
       (clients.filter (fun c => !(fails c))).map
         (fun c => (c, serializeEvent ev))) := by
  unfold broadcast_event
  rw [if_neg (by simpa using h)]
  show (clients.filter
      (fun c => !(decide (c ∈ (sendLoop fails (serializeEvent ev)
        clients).1))), 1,
    (sendLoop fails (serializeEvent ev) clients).2) = _
  rw [sendLoop_eq]
  refine congrArg (fun x => (x, 1, _)) ?_
  apply List.filter_congr
  intro a ha
  simp [List.mem_filter, ha]

lemma filter_eq_nil_of_not_mem (l : List Nat) (c : Nat) (hc : c ∉ l) :
    l.filter (fun x => decide (x = c)) = [] := by
  rw [List.filter_eq_nil_iff]
  intro b hb
  simp only [decide_eq_true_eq]
  rintro rfl
  exact hc hb

lemma filter_eq_singleton_of_nodup (l : List Nat) (c : Nat)
    (hnd : l.Nodup) (hc : c ∈ l) :
    l.filter (fun x => decide (x = c)) = [c] := by
  induction l with
  | nil => cases hc
  | cons a rest ih =>
    rw [List.filter_cons]
    by_cases hac : a = c
    · subst hac
      rw [if_pos (by simp),
        filter_eq_nil_of_not_mem rest _ (List.nodup_cons.1 hnd).1]
    · have hc' : c ∈ rest := by
        rcases List.mem_cons.1 hc with h1 | h1
        · exact absurd h1.symm hac
        · exact h1
      rw [if_neg (by simp [hac])]
      exact ih (List.nodup_cons.1 hnd).2 hc'

lemma receivedBy_append (c : Nat) (d1 d2 : List (Nat × String)) :
    receivedBy c (d1 ++ d2) = receivedBy c d1 ++ receivedBy c d2 := by
  unfold receivedBy
  rw [List.filter_append, List.map_append]

lemma receivedBy_map_self (c : Nat) (msg : String) (l : List Nat)
    (hnd : l.Nodup) (hc : c ∈ l) :
    receivedBy c (l.map (fun x => (x, msg))) = [msg] := by
  unfold receivedBy
  rw [List.filter_map]
  have hp : ((fun d : Nat × String => decide (d.1 = c)) ∘
      (fun x : Nat => (x, msg))) = fun x : Nat => decide (x = c) := by
    funext x
    rfl
  rw [hp, filter_eq_singleton_of_nodup l c hnd hc]
  rfl

lemma process_event_rel_other (st : ServerState) (e : RawEvent)
    (hr : e.etype = EV_REL) (hx : e.code ≠ REL_X) (hy : e.code ≠ REL_Y)
    (hw : e.code ≠ REL_WHEEL) (hh : e.code ≠ REL_HWHEEL) :
    process_event st e = (st, none) := by
  have hk : e.etype ≠ EV_KEY := by rw [hr]; decide
  unfold process_event
  rw [if_neg hk, if_pos hr, if_neg hx, if_neg hy, if_neg hw, if_neg hh]

/-- Every mouse-button event handed to `broadcast_event` carries exactly
the post-mutation `mouse_button_state`. -/
lemma emitted_button_mask_is_state (st : ServerState) (e : RawEvent)
    (et : String) (b mask : Nat)
    (hm : (process_event st e).2 = some (.mouseButton et b mask)) :
    mask = (process_event st e).1.mouse_button_state := by
  by_cases hk : e.etype = EV_KEY
  · cases hb : MOUSE_BUTTON_MASKS e.code with
    | some m =>
      rw [process_event_button_branch st e hk (by rw [hb]; rfl)] at hm ⊢
      rcases eq_or_ne e.value 1 with hv | hv
      · rw [hv, handle_mouse_button_press st e.code m hb] at hm ⊢
        injection hm with hm
        injection hm with _ _ hmask
        rw [hmask]
      · rcases eq_or_ne e.value 0 with hv0 | hv0
        · rw [hv0, handle_mouse_button_release st e.code m hb] at hm ⊢
          injection hm with hm
          injection hm with _ _ hmask
          rw [hmask]
        · rw [handle_mouse_button_other st e.code e.value hv hv0] at hm
          cases hm
    | none =>
      cases hl : EVDEV_TO_LIBUIOHOOK e.code with
      | none => rw [process_event_unmapped st e hk hb hl] at hm; cases hm
      | some p =>
        rw [process_event_key_branch st e hk hb (by rw [hl]; rfl)] at hm
        rcases eq_or_ne e.value 1 with hv | hv
        · rw [hv, handle_keyboard_key_press st e.code p hl] at hm
          injection hm with hm
          cases hm
        · rcases eq_or_ne e.value 0 with hv0 | hv0
          · rw [hv0, handle_keyboard_key_release st e.code p hl] at hm
            injection hm with hm
            cases hm
          · rw [handle_keyboard_key_other st e.code e.value hv hv0] at hm
            cases hm
  · by_cases hr : e.etype = EV_REL
    · rcases eq_or_ne e.code REL_X with hx | hx
      · rw [process_event_relx st e hr hx] at hm
        injection hm with hm
        cases hm
      · rcases eq_or_ne e.code REL_Y with hy | hy
        · rw [process_event_rely st e hr hy] at hm
          injection hm with hm
          cases hm
        · rcases eq_or_ne e.code REL_WHEEL with hw | hw
          · rw [process_event_wheel st e hr hw] at hm
            injection hm with hm
            cases hm
          · rcases eq_or_ne e.code REL_HWHEEL with hh | hh
            · rw [process_event_hwheel st e hr hh] at hm
              injection hm with hm
              cases hm
            · rw [process_event_rel_other st e hr hx hy hw hh] at hm
              cases hm
    · rw [process_event_other_type st e hk hr] at hm
      cases hm

/-- One step preserves "the button mask only uses bits 8–12"
(`7936 = 0b1111100000000`). -/
lemma process_event_mask_within (st : ServerState) (e : RawEvent)
    (h : st.mouse_button_state &&& 7936 = st.mouse_button_state) :
    (process_event st e).1.mouse_button_state &&& 7936 =
      (process_event st e).1.mouse_button_state := by
  by_cases hk : e.etype = EV_KEY
  · cases hb : MOUSE_BUTTON_MASKS e.code with
    | some m =>
      rw [process_event_button_branch st e hk (by rw [hb]; rfl)]
      rcases eq_or_ne e.value 1 with hv | hv
      · rw [hv, handle_mouse_button_press st e.code m hb]
        show (st.mouse_button_state ||| m) &&& 7936 = _
        rw [or_and_distrib, h, button_mask_within hb]
      · rcases eq_or_ne e.value 0 with hv0 | hv0
        · rw [hv0, handle_mouse_button_release st e.code m hb]
          exact clear_and_of_sub _ _ _ h
        · rw [handle_mouse_button_other st e.code e.value hv hv0]
          exact h
    | none =>
      cases hl : EVDEV_TO_LIBUIOHOOK e.code with
      | none => rw [process_event_unmapped st e hk hb hl]; exact h
      | some p =>
        rw [process_event_key_branch st e hk hb (by rw [hl]; rfl),
          handle_keyboard_key_mask]
        exact h
  · by_cases hr : e.etype = EV_REL
    · rw [(process_event_rel_state st e hr).1]; exact h
    · rw [process_event_other_type st e hk hr]; exact h

lemma replayEvents_cons (st : ServerState) (e : RawEvent)
    (rest : List RawEvent) :
    replayEvents st (e :: rest) =
      (process_event st e).2.toList ++
        replayEvents (process_event st e).1 rest :=
  rfl

/-- Replay preserves the bits-8–12 invariant of the button mask, for the
session state and for every emitted mouse-button event. -/
lemma replay_mask_invariant (es : List RawEvent) (st : ServerState)
    (h : st.mouse_button_state &&& 7936 = st.mouse_button_state) :
    (replayState st es).mouse_button_state &&& 7936 =
      (replayState st es).mouse_button_state ∧
    (∀ et b mask, InputEvent.mouseButton et b mask ∈ replayEvents st es →
      mask &&& 7936 = mask) := by
  induction es generalizing st with
  | nil =>
    refine ⟨h, ?_⟩
    intro et b mask hmem
    cases hmem
  | cons e rest ih =>
    have hstep := process_event_mask_within st e h
    have ihh := ih (process_event st e).1 hstep
    refine ⟨ihh.1, ?_⟩
    intro et b mask hmem
    rw [replayEvents_cons] at hmem
    rcases List.mem_append.1 hmem with hm1 | hm2
    · have hsome : (process_event st e).2 =
          some (.mouseButton et b mask) := by
        cases ho : (process_event st e).2 with
        | none => rw [ho] at hm1; cases hm1
        | some ev =>
          rw [ho] at hm1
          exact congrArg some (List.mem_singleton.1 hm1).symm
      have hmask := emitted_button_mask_is_state st e et b mask hsome
      rw [hmask]
      exact hstep
    · exact ihh.2 et b mask hm2

lemma receivedBy_publishFrom (fails : Nat → Nat → Bool)
    (events : List InputEvent) (n : Nat) (clients : List Nat) (c : Nat)
    (hc : c ∈ clients) (hnd : clients.Nodup)
    (hok : ∀ k, fails c k = false) :
    receivedBy c (publishFrom fails n clients events).2 =
      events.map serializeEvent := by
  induction events generalizing n clients with
  | nil => rfl
  | cons ev rest ih =>
    have hne : clients ≠ [] := by rintro rfl; cases hc
    show receivedBy c
      ((broadcast_event (fun cl => fails cl n) clients ev).2.2 ++
        (publishFrom fails (n + 1)
          (broadcast_event (fun cl => fails cl n) clients ev).1 rest).2) =
      _
    rw [broadcast_event_nonempty _ _ _ hne, receivedBy_append,
      receivedBy_map_self c _ _ (hnd.filter _)
        (List.mem_filter.2 ⟨hc, by rw [hok n]; rfl⟩),
      ih (n + 1) _ (List.mem_filter.2 ⟨hc, by rw [hok n]; rfl⟩)
        (hnd.filter _)]
    rfl

/-! # The claims -/

/-- Claim C1: a repeat (`value = 2`) key/button event mutates no state and
emits no event, so after replaying any raw sequence from the initial state
the pressed-key set and button mask are exactly those implied by the last
press or release per code — a protocol key is in the set iff its last
press/release was a press, and a button's mask bit is set iff its last
press/release was a press. -/
theorem C1_repeats_suppressed (st : ServerState) (e : RawEvent)
    (es : List RawEvent) (p c m : Nat)
    (he : e.etype = EV_KEY) (hv : e.value = 2)
    (hm : MOUSE_BUTTON_MASKS c = some m) :
    process_event st e = (st, none) ∧
    (p ∈ (replayState initState es).current_keyboard_state ↔
      lastKeyAct es p = some 1) ∧
    ((replayState initState es).mouse_button_state &&& m =
      if lastButtonAct es c = some 1 then m else 0) := by
  refine ⟨?_, ?_, ?_⟩
  · by_cases hb : (MOUSE_BUTTON_MASKS e.code).isSome
    · rw [process_event_button_branch st e he hb, hv,
        handle_mouse_button_other st e.code 2 (by decide) (by decide)]
    · rw [Option.not_isSome_iff_eq_none] at hb
      cases hl : EVDEV_TO_LIBUIOHOOK e.code with
      | none => exact process_event_unmapped st e he hb hl
      | some p' =>
        rw [process_event_key_branch st e he hb (by rw [hl]; rfl), hv,
          handle_keyboard_key_other st e.code 2 (by decide) (by decide)]
  · rw [keys_replay_char]
    simp [initState]
  · rw [mask_replay_char es initState c m hm]
    cases hl : lastButtonAct es c with
    | none => simp [initState]
    | some v =>
      show (if v = 1 then m else 0) = _
      by_cases hv1 : v = 1
      · subst hv1; simp
      · rw [if_neg hv1,
          if_neg (fun hh : some v = some 1 => by
            injection hh with hh; exact hv1 hh)]

/-- Witness for C1 at a concrete repeat event and replay. -/
theorem C1_witness :
    process_event initState ⟨1, 30, 2⟩ = (initState, none) ∧
    (30 ∈ (replayState initState
        [⟨1, 30, 1⟩, ⟨1, 272, 1⟩]).current_keyboard_state ↔
      lastKeyAct [⟨1, 30, 1⟩, ⟨1, 272, 1⟩] 30 = some 1) ∧
    ((replayState initState
        [⟨1, 30, 1⟩, ⟨1, 272, 1⟩]).mouse_button_state &&& 256 =
      if lastButtonAct [⟨1, 30, 1⟩, ⟨1, 272, 1⟩] 272 = some 1
      then 256 else 0) :=
  C1_repeats_suppressed initState ⟨1, 30, 2⟩
    [⟨1, 30, 1⟩, ⟨1, 272, 1⟩] 30 272 256 rfl rfl (by decide)

/-- Claim C2: every `MouseMoved` emission carries the cumulative sums of
the relative deltas per axis since session start (the emitting axis
including the current event), one emission per axis event; and the
scenario `[REL_X=+5, REL_Y=-3]` from (0,0) emits `MouseMoved{5,0}` then
`MouseMoved{5,-3}`. -/
theorem C2_mouse_moved_cumulative :
    (∀ (l : List RawEvent) (e : RawEvent),
      e.etype = EV_REL → e.code = REL_X →
      (process_event (replayState initState l) e).2 =
        some (.mouseMovement MOUSE_MOVED (sumRelX (l ++ [e]))
          (sumRelY l))) ∧
    (∀ (l : List RawEvent) (e : RawEvent),
      e.etype = EV_REL → e.code = REL_Y →
      (process_event (replayState initState l) e).2 =
        some (.mouseMovement MOUSE_MOVED (sumRelX l)
          (sumRelY (l ++ [e])))) ∧
    replayEvents initState [⟨EV_REL, REL_X, 5⟩, ⟨EV_REL, REL_Y, -3⟩] =
      [.mouseMovement MOUSE_MOVED 5 0,
       .mouseMovement MOUSE_MOVED 5 (-3)] := by
  refine ⟨?_, ?_, by decide⟩
  · intro l e hr hc
    rw [process_event_relx _ e hr hc]
    have hx : (replayState initState l).mouse_x = sumRelX l := by
      rw [replay_mouse_x]
      show (0 : Int) + _ = _
      rw [Int.zero_add]
    have hy : (replayState initState l).mouse_y = sumRelY l := by
      rw [replay_mouse_y]
      show (0 : Int) + _ = _
      rw [Int.zero_add]
    have hse : sumRelX (l ++ [e]) = sumRelX l + e.value := by
      rw [sumRelX_append, sumRelX_cons, if_pos ⟨hr, hc⟩]
      show sumRelX l + (e.value + sumRelX []) = _
      norm_num [sumRelX]
    rw [hx, hy, hse]
  · intro l e hr hc
    rw [process_event_rely _ e hr hc]
    have hx : (replayState initState l).mouse_x = sumRelX l := by
      rw [replay_mouse_x]
      show (0 : Int) + _ = _
      rw [Int.zero_add]
    have hy : (replayState initState l).mouse_y = sumRelY l := by
      rw [replay_mouse_y]
      show (0 : Int) + _ = _
      rw [Int.zero_add]
    have hse : sumRelY (l ++ [e]) = sumRelY l + e.value := by
      rw [sumRelY_append, sumRelY_cons, if_pos ⟨hr, hc⟩]
      show sumRelY l + (e.value + sumRelY []) = _
      norm_num [sumRelY]
    rw [hx, hy, hse]

/-- Witness for C2 at a concrete `REL_X` event from the initial state. -/
theorem C2_witness :
    (process_event (replayState initState []) ⟨2, 0, 5⟩).2 =
      some (.mouseMovement MOUSE_MOVED (sumRelX ([] ++ [⟨2, 0, 5⟩]))
        (sumRelY [])) :=
  C2_mouse_moved_cumulative.1 [] ⟨2, 0, 5⟩ rfl rfl

/-- Claim C3: a wheel event emits `MouseWheel` whose rotation is the raw
value's sign collapsed to exactly `+1` or `-1` (always one of the two,
`+1` for positive values, `-1` for negative ones, magnitude discarded),
with no state change; `REL_WHEEL = -7` emits vertical `-1`. -/
theorem C3_wheel_direction_sign :
    (∀ (st : ServerState) (e : RawEvent),
      e.etype = EV_REL → e.code = REL_WHEEL →
      process_event st e =
        (st, some (.mouseWheel MOUSE_WHEEL VERTICAL
          (wheelRotation e.value)))) ∧
    (∀ (st : ServerState) (e : RawEvent),
      e.etype = EV_REL → e.code = REL_HWHEEL →
      process_event st e =
        (st, some (.mouseWheel MOUSE_WHEEL HORIZONTAL
          (wheelRotation e.value)))) ∧
    (∀ v : Int, (wheelRotation v = 1 ∨ wheelRotation v = -1) ∧
      (0 < v → wheelRotation v = 1) ∧
      (v < 0 → wheelRotation v = -1)) ∧
    replayEvents initState [⟨EV_REL, REL_WHEEL, -7⟩] =
      [.mouseWheel MOUSE_WHEEL VERTICAL (-1)] := by
  refine ⟨fun st e hr hc => process_event_wheel st e hr hc,
    fun st e hr hc => process_event_hwheel st e hr hc, ?_, by decide⟩
  intro v
  unfold wheelRotation
  by_cases hv : v > 0
  · rw [if_pos hv]
    exact ⟨Or.inl rfl, fun _ => rfl, fun hlt => absurd hv (by omega)⟩
  · rw [if_neg hv]
    exact ⟨Or.inr rfl, fun hgt => absurd hgt hv, fun _ => rfl⟩

/-- Witness for C3 at `REL_WHEEL = -7`. -/
theorem C3_witness :
    process_event initState ⟨2, 8, -7⟩ =
      (initState, some (.mouseWheel MOUSE_WHEEL VERTICAL
        (wheelRotation (-7)))) ∧
    wheelRotation (-7) = -1 :=
  ⟨C3_wheel_direction_sign.1 initState ⟨2, 8, -7⟩ rfl rfl,
   (C3_wheel_direction_sign.2.2.1 (-7)).2.2 (by decide)⟩

/-- Claim C4 (counterexample): replaying `BTN_LEFT` down, `BTN_RIGHT`
down, `BTN_LEFT` up emits the masks `256, 768, 512` — bits 8 and 9 of the
protocol mask — not `{bit0}, {bit0,bit1}, {bit1}` (`1, 3, 2`) as the claim
states. -/
theorem C4_counterexample :
    masksOf (replayEvents initState
        [⟨EV_KEY, BTN_LEFT, 1⟩, ⟨EV_KEY, BTN_RIGHT, 1⟩,
         ⟨EV_KEY, BTN_LEFT, 0⟩]) = [256, 768, 512] ∧
    masksOf (replayEvents initState
        [⟨EV_KEY, BTN_LEFT, 1⟩, ⟨EV_KEY, BTN_RIGHT, 1⟩,
         ⟨EV_KEY, BTN_LEFT, 0⟩]) ≠
      [2 ^ 0, 2 ^ 0 + 2 ^ 1, 2 ^ 1] := by decide

/-- Claim C4 (amended): the scenario emits three mouse-button events whose
masks are, in order, `{bit8}`, `{bit8,bit9}`, `{bit9}` — the defined
button bits start at bit 8 (`VC_BUTTON1 = 1 << 8`), not bit 0. -/
theorem C4_button_scenario_masks :
    replayEvents initState
        [⟨EV_KEY, BTN_LEFT, 1⟩, ⟨EV_KEY, BTN_RIGHT, 1⟩,
         ⟨EV_KEY, BTN_LEFT, 0⟩] =
      [.mouseButton MOUSE_PRESSED 0 (2 ^ 8),
       .mouseButton MOUSE_PRESSED 1 (2 ^ 8 + 2 ^ 9),
       .mouseButton MOUSE_RELEASED 0 (2 ^ 9)] := by decide

/-- Claim C5: a button press emits `MouseButtonPressed` carrying the
post-mutation mask (the pressed button's bit set), a release emits
`MouseButtonReleased` carrying the post-release mask (that bit cleared) —
never the pre-mutation mask. -/
theorem C5_button_event_mask_post_state (st : ServerState) (c m : Nat)
    (hm : MOUSE_BUTTON_MASKS c = some m) :
    (handle_mouse_button st c 1 =
      ({ st with mouse_button_state := st.mouse_button_state ||| m },
       some (.mouseButton MOUSE_PRESSED (c - BTN_LEFT)
         (st.mouse_button_state ||| m))) ∧
      (st.mouse_button_state ||| m) &&& m = m) ∧
    (handle_mouse_button st c 0 =
      ({ st with mouse_button_state :=
           st.mouse_button_state ^^^ (st.mouse_button_state &&& m) },
       some (.mouseButton MOUSE_RELEASED (c - BTN_LEFT)
         (st.mouse_button_state ^^^ (st.mouse_button_state &&& m)))) ∧
      (st.mouse_button_state ^^^ (st.mouse_button_state &&& m)) &&& m
        = 0) :=
  ⟨⟨handle_mouse_button_press st c m hm, or_and_self _ _⟩,
   ⟨handle_mouse_button_release st c m hm, clear_and_self _ _⟩⟩

/-- Witness for C5 at `BTN_LEFT` over a state with the right button held. -/
theorem C5_witness :
    (handle_mouse_button ⟨512, 0, 0, ∅⟩ 272 1 =
      ({ mouse_button_state := 512 ||| 256, mouse_x := 0, mouse_y := 0,
         current_keyboard_state := ∅ },
       some (.mouseButton MOUSE_PRESSED (272 - BTN_LEFT) (512 ||| 256))) ∧
      (512 ||| 256) &&& 256 = 256) ∧
    (handle_mouse_button ⟨512, 0, 0, ∅⟩ 272 0 =
      ({ mouse_button_state := 512 ^^^ (512 &&& 256), mouse_x := 0,
         mouse_y := 0, current_keyboard_state := ∅ },
       some (.mouseButton MOUSE_RELEASED (272 - BTN_LEFT)
         (512 ^^^ (512 &&& 256)))) ∧
      (512 ^^^ (512 &&& 256)) &&& 256 = 0) :=
  C5_button_event_mask_post_state ⟨512, 0, 0, ∅⟩ 272 256 (by decide)

/-- Claim C6: releasing a mapped key that is not in the pressed set, or a
mapped button whose bit is not set, leaves the state unchanged and still
emits a well-formed release event (with the unchanged mask for buttons) —
never an error. -/
theorem C6_release_unpressed_noop (st : ServerState) (e : RawEvent)
    (p m : Nat) :
    (e.etype = EV_KEY → e.value = 0 →
      EVDEV_TO_LIBUIOHOOK e.code = some p →
      p ∉ st.current_keyboard_state →
      process_event st e = (st, some (.keyboard KEY_RELEASED p))) ∧
    (e.etype = EV_KEY → e.value = 0 →
      MOUSE_BUTTON_MASKS e.code = some m →
      st.mouse_button_state &&& m = 0 →
      process_event st e =
        (st, some (.mouseButton MOUSE_RELEASED (e.code - BTN_LEFT)
          st.mouse_button_state))) := by
  constructor
  · intro hk hv hl hmem
    have hb : MOUSE_BUTTON_MASKS e.code = none := by
      cases hbb : MOUSE_BUTTON_MASKS e.code with
      | none => rfl
      | some mm => rw [tables_disjoint hbb] at hl; cases hl
    rw [process_event_key_branch st e hk hb (by rw [hl]; rfl), hv,
      handle_keyboard_key_release st e.code p hl, if_neg hmem]
  · intro hk hv hm hbit
    rw [process_event_button_branch st e hk (by rw [hm]; rfl), hv,
      handle_mouse_button_release st e.code m hm, hbit, Nat.xor_zero]

/-- Witness for C6: releasing never-pressed `KEY_A` and `BTN_LEFT` from
the initial state. -/
theorem C6_witness :
    process_event initState ⟨1, 30, 0⟩ =
      (initState, some (.keyboard KEY_RELEASED 30)) ∧
    process_event initState ⟨1, 272, 0⟩ =
      (initState, some (.mouseButton MOUSE_RELEASED (272 - BTN_LEFT)
        initState.mouse_button_state)) :=
  ⟨(C6_release_unpressed_noop initState ⟨1, 30, 0⟩ 30 256).1
      rfl rfl (by decide) (by decide),
   (C6_release_unpressed_noop initState ⟨1, 272, 0⟩ 30 256).2
      rfl rfl (by decide) (by decide)⟩

/-- Claim C7: a raw event whose code is in neither table, or whose event
type is unrecognized, emits nothing and mutates nothing (and, being a
total function, never raises). -/
theorem C7_unmapped_silently_dropped (st : ServerState) (e : RawEvent) :
    (e.etype = EV_KEY → MOUSE_BUTTON_MASKS e.code = none →
      EVDEV_TO_LIBUIOHOOK e.code = none →
      process_event st e = (st, none)) ∧
    (e.etype ≠ EV_KEY → e.etype ≠ EV_REL →
      process_event st e = (st, none)) :=
  ⟨fun hk hb hl => process_event_unmapped st e hk hb hl,
   fun hk hr => process_event_other_type st e hk hr⟩

/-- Witness for C7: an unmapped key code (`0`) and an unrecognized event
type (`3`). -/
theorem C7_witness :
    process_event initState ⟨1, 0, 1⟩ = (initState, none) ∧
    process_event initState ⟨3, 0, 1⟩ = (initState, none) :=
  ⟨(C7_unmapped_silently_dropped initState ⟨1, 0, 1⟩).1
      rfl (by decide) (by decide),
   (C7_unmapped_silently_dropped initState ⟨3, 0, 1⟩).2
      (by decide) (by decide)⟩

/-- Claim C8: publishing to an empty subscriber set returns before any
serialization (serialization count `0`, no deliveries) and never errors. -/
theorem C8_publish_empty_is_noop (fails : Nat → Bool)
    (event : InputEvent) :
    broadcast_event fails [] event = ([], 0, []) :=
  rfl

/-- Claim C9: within one publish a failing subscriber neither prevents
delivery to any non-failing subscriber nor escapes the publish, and is
removed from the subscriber set by that publish; a subscriber that never
fails receives every published event in publish-invocation order. -/
theorem C9_failure_isolation_and_order (fails1 : Nat → Bool)
    (fails : Nat → Nat → Bool) (clients : List Nat) (ev : InputEvent)
    (events : List InputEvent) (n c : Nat) :
    (c ∈ clients → fails1 c = false →
      (c, serializeEvent ev) ∈ (broadcast_event fails1 clients ev).2.2) ∧
    (c ∈ clients → fails1 c = true →
      c ∉ (broadcast_event fails1 clients ev).1) ∧
    (c ∈ clients → clients.Nodup → (∀ k, fails c k = false) →
      receivedBy c (publishFrom fails n clients events).2 =
        events.map serializeEvent) := by
  refine ⟨?_, ?_,
    fun hc hnd hok =>
      receivedBy_publishFrom fails events n clients c hc hnd hok⟩
  · intro hc hfc
    have hne : clients ≠ [] := by rintro rfl; cases hc
    rw [broadcast_event_nonempty _ _ _ hne]
    exact List.mem_map.2
      ⟨c, List.mem_filter.2 ⟨hc, by rw [hfc]; rfl⟩, rfl⟩
  · intro hc hfc
    have hne : clients ≠ [] := by rintro rfl; cases hc
    rw [broadcast_event_nonempty _ _ _ hne]
    intro hmem
    have hkeep := (List.mem_filter.1 hmem).2
    rw [hfc] at hkeep
    exact absurd hkeep (by decide)

/-- Witness for C9: two subscribers, subscriber `1` always failing. -/
theorem C9_witness :
    ((0, serializeEvent (.keyboard KEY_PRESSED 30)) ∈
      (broadcast_event (fun cl => cl == 1) [0, 1]
        (.keyboard KEY_PRESSED 30)).2.2) ∧
    (1 ∉ (broadcast_event (fun cl => cl == 1) [0, 1]
      (.keyboard KEY_PRESSED 30)).1) ∧
    receivedBy 0 (publishFrom (fun cl _ => cl == 1) 0 [0, 1]
        [.keyboard KEY_PRESSED 30]).2 =
      [InputEvent.keyboard KEY_PRESSED 30].map serializeEvent :=
  ⟨(C9_failure_isolation_and_order (fun cl => cl == 1)
      (fun cl _ => cl == 1) [0, 1] (.keyboard KEY_PRESSED 30)
      [.keyboard KEY_PRESSED 30] 0 0).1 (by decide) (by decide),
   (C9_failure_isolation_and_order (fun cl => cl == 1)
      (fun cl _ => cl == 1) [0, 1] (.keyboard KEY_PRESSED 30)
      [.keyboard KEY_PRESSED 30] 0 1).2.1 (by decide) (by decide),
   (C9_failure_isolation_and_order (fun cl => cl == 1)
      (fun cl _ => cl == 1) [0, 1] (.keyboard KEY_PRESSED 30)
      [.keyboard KEY_PRESSED 30] 0 0).2.2 (by decide) (by decide)
      (fun _ => rfl)⟩

/-- Claim C10 (implicit): from the initial mask `0`, after any replay the
button mask only uses the five defined button bits (8–12, union `7936`),
and every emitted mouse-button event's mask does too. -/
theorem C10_mask_bits_within_defined_buttons (es : List RawEvent)
    (et : String) (b mask : Nat) :
    ((replayState initState es).mouse_button_state &&& 7936 =
      (replayState initState es).mouse_button_state) ∧
    (InputEvent.mouseButton et b mask ∈ replayEvents initState es →
      mask &&& 7936 = mask) := by
  have h := replay_mask_invariant es initState rfl
  exact ⟨h.1, fun hmem => h.2 et b mask hmem⟩

/-- Witness for C10 after pressing `BTN_LEFT`. -/
theorem C10_witness :
    ((replayState initState [⟨1, 272, 1⟩]).mouse_button_state &&& 7936 =
      (replayState initState [⟨1, 272, 1⟩]).mouse_button_state) ∧
    256 &&& 7936 = 256 :=
  ⟨(C10_mask_bits_within_defined_buttons [⟨1, 272, 1⟩]
      MOUSE_PRESSED 0 256).1,
   (C10_mask_bits_within_defined_buttons [⟨1, 272, 1⟩]
      MOUSE_PRESSED 0 256).2 (by decide)⟩
